import Mathlib

/-!
# Eventify seat-reservation engine: a shallow embedding

This file embeds the persistent data model and the operations of
`src/eventify/database_manager.py` (class `DatabaseManager`), together with the
static seat-map layout of `src/eventify/base_stage_view.py` and the
date-conflict validation flow of `create_event_view.py` / `edit_event_view.py`,
and proves the claims of the specification against them.

Modelling conventions:
* The SQLite `user_reservation` table is a list of rows (insertion order =
  `rowid` order).  The surrogate key `reservation_id`, the wall-clock column
  `reserved_at` and the constant column `status` (always `'reserved'`: no code
  path ever writes another value, so every stored row is an active
  reservation) are omitted; the remaining columns are exactly the ones the
  operations read and write.
* The `UNIQUE(event_id, seat_row, seat_number)` constraint is modelled by the
  insert raising `IntegrityError` exactly when a row with the same triple is
  already present (`seatTaken`).
* The `events` table is a list of rows plus the `AUTOINCREMENT` counter for
  `id`; the wall-clock column `created_at` is omitted.  `REAL` prices are
  modelled as rationals; the claims only store and compare them.
* SQL `ORDER BY seat_row, seat_number` is modelled by a stable insertion sort
  under SQLite's ordering on `TEXT` (bytewise, here: by character code) and
  `INTEGER` values.
-/

/-- One row of the `user_reservation` table (see `setup_database`,
`database_manager.py` lines 58-69). -/
structure Reservation where
  username : String
  event_id : Nat
  seat_row : String
  seat_number : Nat
deriving DecidableEq, Repr

/-- The reservation ledger: the `user_reservation` table as a list of rows. -/
abbrev ReservationDB := List Reservation

/-- Row predicate for the `UNIQUE(event_id, seat_row, seat_number)` key. -/
def seatKeyMatches (event_id : Nat) (seat_row : String) (seat_number : Nat)
    (r : Reservation) : Bool :=
  r.event_id == event_id && r.seat_row == seat_row && r.seat_number == seat_number

/-- Whether an `INSERT` of `(event_id, seat_row, seat_number)` would violate the
uniqueness constraint, i.e. whether some stored row already has that key. -/
def seatTaken (db : ReservationDB) (event_id : Nat) (seat_row : String)
    (seat_number : Nat) : Bool :=
  db.any (seatKeyMatches event_id seat_row seat_number)

/-- Embeds `DatabaseManager.get_user_reservation_count` (lines 599-630):
`SELECT COUNT(*) FROM user_reservation WHERE event_id = ? AND username = ?`. -/
def get_user_reservation_count (db : ReservationDB) (event_id : Nat)
    (username : String) : Nat :=
  (db.filter (fun r => r.event_id == event_id && r.username == username)).length

/-- Bytewise comparison of character lists, SQLite's ordering on `TEXT`. -/
def charListLe : List Char → List Char → Bool
  | [], _ => true
  | _ :: _, [] => false
  | a :: as, b :: bs =>
    if a.val < b.val then true
    else if b.val < a.val then false
    else charListLe as bs

/-- SQLite `TEXT` ordering on strings. -/
def strLe (a b : String) : Bool := charListLe a.data b.data

/-- SQL `ORDER BY seat_row, seat_number` on `(seat_row, seat_number)` pairs. -/
def seatLe (a b : String × Nat) : Bool :=
  if a.1 == b.1 then a.2 ≤ b.2 else strLe a.1 b.1

/-- Insert into a sorted list (auxiliary for `sortBy`). -/
def insertSorted (le : α → α → Bool) (a : α) : List α → List α
  | [] => [a]
  | b :: bs => if le a b then a :: b :: bs else b :: insertSorted le a bs

/-- Stable insertion sort, modelling SQL `ORDER BY`. -/
def sortBy (le : α → α → Bool) : List α → List α
  | [] => []
  | a :: as => insertSorted le a (sortBy le as)

/-- Embeds `DatabaseManager.get_user_reserved_seats` (lines 498-530):
`SELECT seat_row, seat_number FROM user_reservation WHERE event_id = ? AND
username = ? ORDER BY seat_row, seat_number`. -/
def get_user_reserved_seats (db : ReservationDB) (event_id : Nat)
    (current_username : String) : List (String × Nat) :=
  sortBy seatLe
    ((db.filter (fun r => r.event_id == event_id && r.username == current_username)).map
      (fun r => (r.seat_row, r.seat_number)))

/-- Embeds `DatabaseManager.get_reserved_seats` (lines 464-496): seats held by anyone
other than `current_username` for the event. -/
def get_reserved_seats (db : ReservationDB) (event_id : Nat)
    (current_username : String) : List (String × Nat) :=
  sortBy seatLe
    ((db.filter (fun r => r.event_id == event_id && !(r.username == current_username))).map
      (fun r => (r.seat_row, r.seat_number)))

/-- The dictionary returned by `DatabaseManager.reserve_seats` (lines 542-548).
The keys `success`, `reserved`, `failed`, `message` are modelled one-to-one. -/
structure ReserveResult where
  success : Bool
  reserved : List (String × Nat)
  failed : List (String × Nat)
  message : Option String
deriving DecidableEq, Repr

/-- The per-seat loop of `DatabaseManager.reserve_seats` (lines 569-585): each
seat is inserted unless the uniqueness constraint fires, in which case it is
appended to `failed` and the loop continues with the next seat.  Returns the
`reserved` list, the `failed` list, and the ledger after the loop. -/
def reserveLoop (username : String) (event_id : Nat) :
    List (String × Nat) → ReservationDB →
    List (String × Nat) × List (String × Nat) × ReservationDB
  | [], db => ([], [], db)
  | (seat_row, seat_number) :: rest, db =>
    if seatTaken db event_id seat_row seat_number then
      let p := reserveLoop username event_id rest db
      (p.1, (seat_row, seat_number) :: p.2.1, p.2.2)
    else
      let p := reserveLoop username event_id rest
        (db ++ [⟨username, event_id, seat_row, seat_number⟩])
      ((seat_row, seat_number) :: p.1, p.2.1, p.2.2)

/-- The quota-error message built at `database_manager.py` line 561 (the
f-string rendered by concatenation; `remaining = 4 - current_count` is a
Python `int`, hence an integer that may be negative). -/
def quotaMessage (current_count : Nat) : String :=
  "You can only reserve up to 4 seats total. You currently have " ++
    toString current_count ++ " reservation(s) and can add " ++
    toString ((4 : Int) - current_count) ++ " more."

/-- Embeds `DatabaseManager.reserve_seats` (lines 532-597): quota pre-check, then the
per-seat insert loop; `success` is `len(failed) == 0`.  Returns the result
dictionary and the ledger after the call. -/
def reserve_seats (db : ReservationDB) (username : String) (event_id : Nat)
    (seats : List (String × Nat)) : ReserveResult × ReservationDB :=
  let current_count := get_user_reservation_count db event_id username
  if current_count + seats.length > 4 then
    ({ success := false, reserved := [], failed := seats,
       message := some (quotaMessage current_count) }, db)
  else
    let p := reserveLoop username event_id seats db
    ({ success := p.2.1.length == 0, reserved := p.1, failed := p.2.1,
       message := none }, p.2.2)

/-- Row predicate for the exact four-key match used by `cancel_reservation`:
`WHERE username = ? AND event_id = ? AND seat_row = ? AND seat_number = ?`. -/
def cancelMatches (username : String) (event_id : Nat) (seat_row : String)
    (seat_number : Nat) (r : Reservation) : Bool :=
  r.username == username && r.event_id == event_id &&
    r.seat_row == seat_row && r.seat_number == seat_number

/-- Embeds `DatabaseManager.cancel_reservation` (lines 632-663): `DELETE` of the rows
matching all four keys; the returned Boolean is `cursor.rowcount > 0`, i.e.
whether at least one row matched. -/
def cancel_reservation (db : ReservationDB) (username : String) (event_id : Nat)
    (seat_row : String) (seat_number : Nat) : Bool × ReservationDB :=
  (db.any (cancelMatches username event_id seat_row seat_number),
   db.filter (fun r => !(cancelMatches username event_id seat_row seat_number r)))

/-- A way the reservation ledger can be mutated: the spec's `book` is
`DatabaseManager.reserve_seats`, its `cancel` is
`DatabaseManager.cancel_reservation`. -/
inductive LedgerOp where
  | book (username : String) (event_id : Nat) (seats : List (String × Nat))
  | cancel (username : String) (event_id : Nat) (seat_row : String) (seat_number : Nat)

/-- The ledger after one operation. -/
def applyOp (db : ReservationDB) : LedgerOp → ReservationDB
  | .book username event_id seats => (reserve_seats db username event_id seats).2
  | .cancel username event_id seat_row seat_number =>
    (cancel_reservation db username event_id seat_row seat_number).2

/-- The ledger after a sequence of operations, starting from the empty table
created by `setup_database`. -/
def applyOps (ops : List LedgerOp) : ReservationDB :=
  ops.foldl applyOp []

/-- Number of stored rows for one `(event_id, seat_row, seat_number)` key. -/
def seatKeyCount (db : ReservationDB) (event_id : Nat) (seat_row : String)
    (seat_number : Nat) : Nat :=
  (db.filter (seatKeyMatches event_id seat_row seat_number)).length

/-- One row of the `events` table (see `setup_database`, `database_manager.py`
lines 42-55). -/
structure Event where
  id : Nat
  name : String
  description : String
  date : String
  time : String
  end_time : String
  venue : String
  capacity : Nat
  price : Rat
deriving DecidableEq, Repr

/-- The `events` table: its rows plus the `AUTOINCREMENT` state for `id`
(`nextId` is the id the next `INSERT` receives; a fresh table has `nextId = 1`). -/
structure EventsDB where
  nextId : Nat
  events : List Event
deriving DecidableEq, Repr

/-- The `DEFAULT 550` of the `capacity` column of the `events` table
(`database_manager.py` line 51). -/
def events_capacity_default : Nat := 550

/-- The constant venue string used as default by `create_event` and
`update_event` (`database_manager.py` lines 265, 392). -/
def default_venue : String := "Castle Hill High School auditorium"

/-- Embeds `DatabaseManager.create_event` (lines 265-295): inserts a row with the next
auto-increment id and returns that id (`cursor.lastrowid`). -/
def create_event (db : EventsDB) (name description date time end_time : String)
    (venue : String) (capacity : Nat) (price : Rat) : Nat × EventsDB :=
  (db.nextId,
   { nextId := db.nextId + 1,
     events := db.events ++
       [{ id := db.nextId, name := name, description := description, date := date,
          time := time, end_time := end_time, venue := venue, capacity := capacity,
          price := price }] })

/-- Embeds `DatabaseManager.get_event_by_id` (lines 357-389):
`SELECT * FROM events WHERE id = ?`, first matching row or `None`. -/
def get_event_by_id (db : EventsDB) (event_id : Nat) : Option Event :=
  db.events.find? (fun ev => ev.id == event_id)

/-- Embeds `DatabaseManager.delete_event` (lines 437-462): `DELETE FROM events WHERE
id = ?`, then `return True` — the row count is never consulted, so the call
reports success whether or not a row was deleted. -/
def delete_event (db : EventsDB) (event_id : Nat) : Bool × EventsDB :=
  (true, { db with events := db.events.filter (fun ev => !(ev.id == event_id)) })

/-- Embeds `DatabaseManager.update_event` (lines 391-435): reads the current row,
replaces each of `name`, `description`, `date`, `time`, `end_time`, `price`
only when a new value is supplied (`x if x is not None else current[...]`),
and writes `venue` and `capacity` straight from the parameters (whose Python
defaults are `default_venue` and `550`; the repository's one caller,
`edit_event_view.save_changes`, passes exactly those constants).  Returns
`False` when the event does not exist. -/
def update_event (db : EventsDB) (event_id : Nat)
    (name description date time end_time : Option String)
    (venue : String) (capacity : Nat) (price : Option Rat) : Bool × EventsDB :=
  match get_event_by_id db event_id with
  | none => (false, db)
  | some current_event =>
    let name := name.getD current_event.name
    let description := description.getD current_event.description
    let date := date.getD current_event.date
    let time := time.getD current_event.time
    let end_time := end_time.getD current_event.end_time
    let price := price.getD current_event.price
    (true,
     { db with
       events := db.events.map (fun ev =>
         if ev.id == event_id then
           { ev with
             name := name,
             description := description,
             date := date,
             time := time,
             end_time := end_time,
             venue := venue,
             capacity := capacity,
             price := price }
         else ev) })

/-- Embeds `DatabaseManager.date_has_event` (lines 665-710): counts events on the
date, excluding `exclude_event_id` when one is given (`id != ?`). -/
def date_has_event (db : EventsDB) (date : String) (exclude_event_id : Option Nat) :
    Bool :=
  match exclude_event_id with
  | some x => 0 < (db.events.filter (fun ev => ev.date == date && !(ev.id == x))).length
  | none => 0 < (db.events.filter (fun ev => ev.date == date)).length

/-- The date-conflict gate of `create_event_view.validate_inputs` (line 368)
followed by its `create_event` call (lines 395-402, which passes no venue,
capacity: the Python defaults apply).  Returns `none` and leaves the table
unchanged on a date conflict.  The view's remaining validation (non-empty
fields, date format, event not in the past) is wall-clock and string-format
checking prior to this gate and is not modelled. -/
def create_event_checked (db : EventsDB)
    (name description date time end_time : String) (price : Rat) :
    Option Nat × EventsDB :=
  if date_has_event db date none then (none, db)
  else
    let (event_id, db') := create_event db name description date time end_time
      default_venue events_capacity_default price
    (some event_id, db')

/-- The date-conflict gate of `edit_event_view.validate_inputs` (line 285,
`date_has_event(date, exclude_event_id=self.event_id)`) followed by its
`update_event` call (`save_changes`, lines 316-327, which passes every field
plus the constant venue and capacity 550).  Returns `false` and leaves the
table unchanged on a date conflict. -/
def update_event_checked (db : EventsDB) (event_id : Nat)
    (name description date time end_time : String) (price : Rat) :
    Bool × EventsDB :=
  if date_has_event db date (some event_id) then (false, db)
  else update_event db event_id (some name) (some description) (some date)
    (some time) (some end_time) default_venue events_capacity_default (some price)

/-- The static theatre layout `BaseStageView.rows`
(`base_stage_view.py` lines 33-39): `(row_letter, number_of_seats)` pairs. -/
def rows : List (String × Nat) :=
  [("A", 24), ("B", 24),
   ("C", 28), ("D", 28),
   ("E", 32), ("F", 32),
   ("G", 36), ("H", 36), ("I", 36), ("J", 36), ("K", 36), ("L", 36),
   ("M", 34), ("N", 32)]

/-- Total number of seats in the seat map. -/
def totalSeats : Nat := (rows.map Prod.snd).sum

theorem seatKeyCount_append (db₁ db₂ : ReservationDB) (event_id : Nat)
    (seat_row : String) (seat_number : Nat) :
    seatKeyCount (db₁ ++ db₂) event_id seat_row seat_number =
      seatKeyCount db₁ event_id seat_row seat_number +
        seatKeyCount db₂ event_id seat_row seat_number := by
  simp [seatKeyCount, List.filter_append]

theorem seatTaken_eq_false_iff (db : ReservationDB) (event_id : Nat)
    (seat_row : String) (seat_number : Nat) :
    seatTaken db event_id seat_row seat_number = false ↔
      seatKeyCount db event_id seat_row seat_number = 0 := by
  simp [seatTaken, seatKeyCount, List.any_eq_false, List.length_eq_zero,
    List.filter_eq_nil_iff]

theorem seatTaken_append (db₁ db₂ : ReservationDB) (event_id : Nat)
    (seat_row : String) (seat_number : Nat) :
    seatTaken (db₁ ++ db₂) event_id seat_row seat_number =
      (seatTaken db₁ event_id seat_row seat_number ||
        seatTaken db₂ event_id seat_row seat_number) := by
  simp [seatTaken, List.any_append]

/-- No generated ledger state stores two rows for the same
`(event_id, seat_row, seat_number)` key. -/
def UniqueSeats (db : ReservationDB) : Prop :=
  ∀ event_id seat_row seat_number, seatKeyCount db event_id seat_row seat_number ≤ 1

/-- C2: Quota fail-fast.  When the user's current reservation count for the
event plus the batch size exceeds 4, `reserve_seats` rejects the whole batch
with the quota message: `success` is `False`, nothing is reserved, every
requested seat is in `failed`, and the ledger is returned unchanged. -/
theorem reserve_seats_quota_fail_fast (db : ReservationDB) (username : String)
    (event_id : Nat) (seats : List (String × Nat))
    (h : get_user_reservation_count db event_id username + seats.length > 4) :
    reserve_seats db username event_id seats =
      ({ success := false, reserved := [], failed := seats,
         message := some (quotaMessage (get_user_reservation_count db event_id username)) },
       db) := by
  simp only [reserve_seats, if_pos h]

/-- Witness for C2: a user holding 3 seats who requests 2 more is rejected
outright and the ledger is unchanged. -/
theorem reserve_seats_quota_fail_fast_witness :
    get_user_reservation_count
        [⟨"alice", 1, "A", 1⟩, ⟨"alice", 1, "A", 2⟩, ⟨"alice", 1, "A", 3⟩] 1 "alice" +
      ([("B", 1), ("B", 2)] : List (String × Nat)).length > 4 ∧
    reserve_seats [⟨"alice", 1, "A", 1⟩, ⟨"alice", 1, "A", 2⟩, ⟨"alice", 1, "A", 3⟩]
        "alice" 1 [("B", 1), ("B", 2)] =
      ({ success := false, reserved := [], failed := [("B", 1), ("B", 2)],
         message := some (quotaMessage 3) },
       [⟨"alice", 1, "A", 1⟩, ⟨"alice", 1, "A", 2⟩, ⟨"alice", 1, "A", 3⟩]) :=
  ⟨by decide,
   reserve_seats_quota_fail_fast
     [⟨"alice", 1, "A", 1⟩, ⟨"alice", 1, "A", 2⟩, ⟨"alice", 1, "A", 3⟩]
     "alice" 1 [("B", 1), ("B", 2)] (by decide)⟩

/-- C9: Empty-batch booking succeeds vacuously.  With an empty seat list (and
a reachable quota count, i.e. at most 4 — in particular a full quota of 4),
the call returns `success = True` with empty `reserved` and `failed` lists and
leaves the ledger unchanged. -/
theorem reserve_seats_empty_batch (db : ReservationDB) (username : String)
    (event_id : Nat) (h : get_user_reservation_count db event_id username ≤ 4) :
    reserve_seats db username event_id [] =
      ({ success := true, reserved := [], failed := [], message := none }, db) := by
  have hnot : ¬ get_user_reservation_count db event_id username +
      ([] : List (String × Nat)).length > 4 := by
    simp only [List.length_nil, Nat.add_zero]
    omega
  simp only [reserve_seats, if_neg hnot, reserveLoop]
  rfl

/-- Witness for C9: a user already holding the full quota of 4 seats books an
empty batch and the call succeeds without touching the ledger. -/
theorem reserve_seats_empty_batch_witness :
    get_user_reservation_count
        [⟨"alice", 1, "A", 1⟩, ⟨"alice", 1, "A", 2⟩, ⟨"alice", 1, "A", 3⟩,
         ⟨"alice", 1, "A", 4⟩] 1 "alice" ≤ 4 ∧
    reserve_seats
        [⟨"alice", 1, "A", 1⟩, ⟨"alice", 1, "A", 2⟩, ⟨"alice", 1, "A", 3⟩,
         ⟨"alice", 1, "A", 4⟩] "alice" 1 [] =
      ({ success := true, reserved := [], failed := [], message := none },
       [⟨"alice", 1, "A", 1⟩, ⟨"alice", 1, "A", 2⟩, ⟨"alice", 1, "A", 3⟩,
        ⟨"alice", 1, "A", 4⟩]) :=
  ⟨by decide,
   reserve_seats_empty_batch
     [⟨"alice", 1, "A", 1⟩, ⟨"alice", 1, "A", 2⟩, ⟨"alice", 1, "A", 3⟩,
      ⟨"alice", 1, "A", 4⟩] "alice" 1 (by decide)⟩

/-- C4: Cancel exact-match and idempotence.  `cancel_reservation` returns
`True` exactly when a row matching all four keys is stored; the resulting
ledger keeps precisely the rows that do not match all four keys (so only the
exact reservation is deleted); and a `False` return — a seat not owned by the
caller, or already cancelled — leaves the ledger unchanged. -/
theorem cancel_reservation_exact_match (db : ReservationDB) (username : String)
    (event_id : Nat) (seat_row : String) (seat_number : Nat) :
    ((cancel_reservation db username event_id seat_row seat_number).1 = true ↔
      ∃ r ∈ db, r.username = username ∧ r.event_id = event_id ∧
        r.seat_row = seat_row ∧ r.seat_number = seat_number) ∧
    (∀ r, r ∈ (cancel_reservation db username event_id seat_row seat_number).2 ↔
      r ∈ db ∧ ¬(r.username = username ∧ r.event_id = event_id ∧
        r.seat_row = seat_row ∧ r.seat_number = seat_number)) ∧
    ((cancel_reservation db username event_id seat_row seat_number).1 = false →
      (cancel_reservation db username event_id seat_row seat_number).2 = db) := by
  refine ⟨?_, ?_, ?_⟩
  · simp [cancel_reservation, cancelMatches, List.any_eq_true, and_assoc]
  · intro r
    simp only [cancel_reservation, cancelMatches, List.mem_filter, Bool.not_eq_true',
      Bool.and_eq_false_iff, beq_eq_false_iff_ne, ne_eq, and_congr_right_iff]
    tauto
  · intro h
    simp only [cancel_reservation, List.any_eq_false] at h
    simp only [cancel_reservation]
    rw [List.filter_eq_self]
    intro r hr
    simpa using h r hr

/-- Witness for C4: cancelling a seat the caller does not own returns `False`,
and the theorem then forces the ledger to be unchanged. -/
theorem cancel_reservation_exact_match_witness :
    (cancel_reservation [⟨"alice", 1, "A", 1⟩] "bob" 1 "A" 1).2 =
      [⟨"alice", 1, "A", 1⟩] :=
  (cancel_reservation_exact_match [⟨"alice", 1, "A", 1⟩] "bob" 1 "A" 1).2.2 (by decide)

theorem reserveLoop_nil (username : String) (event_id : Nat) (db : ReservationDB) :
    reserveLoop username event_id [] db = ([], [], db) := rfl

theorem reserveLoop_cons_taken (username : String) (event_id : Nat)
    (seat_row : String) (seat_number : Nat) (rest : List (String × Nat))
    (db : ReservationDB) (h : seatTaken db event_id seat_row seat_number = true) :
    reserveLoop username event_id ((seat_row, seat_number) :: rest) db =
      ((reserveLoop username event_id rest db).1,
       (seat_row, seat_number) :: (reserveLoop username event_id rest db).2.1,
       (reserveLoop username event_id rest db).2.2) := by
  simp only [reserveLoop, if_pos h]

theorem reserveLoop_cons_free (username : String) (event_id : Nat)
    (seat_row : String) (seat_number : Nat) (rest : List (String × Nat))
    (db : ReservationDB) (h : seatTaken db event_id seat_row seat_number = false) :
    reserveLoop username event_id ((seat_row, seat_number) :: rest) db =
      ((seat_row, seat_number) ::
        (reserveLoop username event_id rest
          (db ++ [⟨username, event_id, seat_row, seat_number⟩])).1,
       (reserveLoop username event_id rest
         (db ++ [⟨username, event_id, seat_row, seat_number⟩])).2.1,
       (reserveLoop username event_id rest
         (db ++ [⟨username, event_id, seat_row, seat_number⟩])).2.2) := by
  simp [reserveLoop, h]

theorem uniqueSeats_insert_free (db : ReservationDB) (username : String)
    (event_id : Nat) (seat_row : String) (seat_number : Nat)
    (hdb : UniqueSeats db)
    (hfree : seatTaken db event_id seat_row seat_number = false) :
    UniqueSeats (db ++ [⟨username, event_id, seat_row, seat_number⟩]) := by
  intro e' row' num'
  rw [seatKeyCount_append]
  by_cases hkey : event_id = e' ∧ seat_row = row' ∧ seat_number = num'
  · obtain ⟨rfl, rfl, rfl⟩ := hkey
    rw [(seatTaken_eq_false_iff db event_id seat_row seat_number).1 hfree]
    simp [seatKeyCount, List.filter_cons, seatKeyMatches]
  · have hm : seatKeyMatches e' row' num'
        ⟨username, event_id, seat_row, seat_number⟩ = false := by
      rcases hb : seatKeyMatches e' row' num'
          ⟨username, event_id, seat_row, seat_number⟩ with _ | _
      · rfl
      · exfalso
        apply hkey
        simp only [seatKeyMatches, Bool.and_eq_true, beq_iff_eq] at hb
        exact ⟨hb.1.1, hb.1.2, hb.2⟩
    have h1 : seatKeyCount [⟨username, event_id, seat_row, seat_number⟩] e' row' num' = 0 := by
      simp [seatKeyCount, List.filter_cons, hm]
    rw [h1, Nat.add_zero]
    exact hdb e' row' num'

theorem reserveLoop_uniqueSeats (username : String) (event_id : Nat) :
    ∀ (seats : List (String × Nat)) (db : ReservationDB), UniqueSeats db →
      UniqueSeats (reserveLoop username event_id seats db).2.2 := by
  intro seats
  induction seats with
  | nil => intro db hdb; simpa [reserveLoop_nil] using hdb
  | cons s rest ih =>
    intro db hdb
    obtain ⟨seat_row, seat_number⟩ := s
    rcases Bool.eq_false_or_eq_true (seatTaken db event_id seat_row seat_number) with h | h
    · rw [reserveLoop_cons_taken username event_id seat_row seat_number rest db h]
      exact ih db hdb
    · rw [reserveLoop_cons_free username event_id seat_row seat_number rest db h]
      exact ih _ (uniqueSeats_insert_free db username event_id seat_row seat_number hdb h)

theorem uniqueSeats_nil : UniqueSeats [] := by
  intro event_id seat_row seat_number
  simp [seatKeyCount]

theorem reserve_seats_uniqueSeats (db : ReservationDB) (username : String)
    (event_id : Nat) (seats : List (String × Nat)) (hdb : UniqueSeats db) :
    UniqueSeats (reserve_seats db username event_id seats).2 := by
  rcases Bool.eq_false_or_eq_true
      (decide (get_user_reservation_count db event_id username + seats.length > 4))
    with h | h
  · rw [decide_eq_true_eq] at h
    simpa [reserve_seats, if_pos h] using hdb
  · rw [decide_eq_false_iff_not] at h
    simpa [reserve_seats, if_neg h] using
      reserveLoop_uniqueSeats username event_id seats db hdb

theorem cancel_reservation_uniqueSeats (db : ReservationDB) (username : String)
    (event_id : Nat) (seat_row : String) (seat_number : Nat) (hdb : UniqueSeats db) :
    UniqueSeats (cancel_reservation db username event_id seat_row seat_number).2 := by
  intro e' row' num'
  have hsub : ((cancel_reservation db username event_id seat_row seat_number).2.filter
      (seatKeyMatches e' row' num')).Sublist (db.filter (seatKeyMatches e' row' num')) :=
    List.Sublist.filter _ (List.filter_sublist db)
  exact le_trans hsub.length_le (hdb e' row' num')

theorem foldl_applyOp_uniqueSeats :
    ∀ (ops : List LedgerOp) (db : ReservationDB), UniqueSeats db →
      UniqueSeats (ops.foldl applyOp db)
  | [], _, hdb => hdb
  | op :: rest, db, hdb => by
    rw [List.foldl_cons]
    apply foldl_applyOp_uniqueSeats rest
    cases op with
    | book username event_id seats =>
      exact reserve_seats_uniqueSeats db username event_id seats hdb
    | cancel username event_id seat_row seat_number =>
      exact cancel_reservation_uniqueSeats db username event_id seat_row seat_number hdb

/-- C1: Seat uniqueness invariant.  Starting from the empty reservation
ledger, after any sequence of `reserve_seats` (book) and `cancel_reservation`
(cancel) calls, at most one active reservation row exists for any
`(event_id, seat_row, seat_number)` key. -/
theorem seat_uniqueness_invariant (ops : List LedgerOp) (event_id : Nat)
    (seat_row : String) (seat_number : Nat) :
    seatKeyCount (applyOps ops) event_id seat_row seat_number ≤ 1 :=
  foldl_applyOp_uniqueSeats ops [] uniqueSeats_nil event_id seat_row seat_number

theorem reserveLoop_perm (username : String) (event_id : Nat) :
    ∀ (seats : List (String × Nat)) (db : ReservationDB),
      ((reserveLoop username event_id seats db).1 ++
        (reserveLoop username event_id seats db).2.1).Perm seats := by
  intro seats
  induction seats with
  | nil => intro db; simp [reserveLoop_nil]
  | cons s rest ih =>
    intro db
    obtain ⟨seat_row, seat_number⟩ := s
    rcases Bool.eq_false_or_eq_true (seatTaken db event_id seat_row seat_number) with h | h
    · rw [reserveLoop_cons_taken username event_id seat_row seat_number rest db h]
      exact (List.perm_middle.trans ((ih db).cons (seat_row, seat_number)))
    · rw [reserveLoop_cons_free username event_id seat_row seat_number rest db h]
      exact (ih _).cons (seat_row, seat_number)

theorem seatKeyMatches_pair_iff (event_id : Nat) (s t : String × Nat)
    (username : String) :
    seatKeyMatches event_id s.1 s.2 ⟨username, event_id, t.1, t.2⟩ = true ↔ t = s := by
  constructor
  · intro h
    simp only [seatKeyMatches, Bool.and_eq_true, beq_iff_eq] at h
    exact Prod.ext h.1.2 h.2
  · intro h
    subst h
    simp [seatKeyMatches]

theorem reserveLoop_reserved_of_free (username : String) (event_id : Nat) :
    ∀ (seats : List (String × Nat)) (db : ReservationDB) (s : String × Nat),
      s ∈ seats → seatTaken db event_id s.1 s.2 = false → seats.count s = 1 →
      s ∈ (reserveLoop username event_id seats db).1 := by
  intro seats
  induction seats with
  | nil => intro db s hs; exact absurd hs (List.not_mem_nil s)
  | cons s₀ rest ih =>
    intro db s hs hfree hcount
    obtain ⟨seat_row, seat_number⟩ := s₀
    by_cases heq : s = (seat_row, seat_number)
    · subst heq
      have hfree' : seatTaken db event_id seat_row seat_number = false := hfree
      rw [reserveLoop_cons_free username event_id seat_row seat_number rest db hfree']
      exact List.mem_cons_self _ _
    · have hrest : s ∈ rest := by
        rcases List.mem_cons.1 hs with h | h
        · exact absurd h heq
        · exact h
      have hcount' : rest.count s = 1 := by
        rwa [List.count_cons_of_ne heq] at hcount
      rcases Bool.eq_false_or_eq_true (seatTaken db event_id seat_row seat_number)
        with h | h
      · rw [reserveLoop_cons_taken username event_id seat_row seat_number rest db h]
        exact ih db s hrest hfree hcount'
      · rw [reserveLoop_cons_free username event_id seat_row seat_number rest db h]
        apply List.mem_cons_of_mem
        apply ih _ s hrest _ hcount'
        rw [seatTaken_append]
        rw [hfree]
        simp only [Bool.false_or, seatTaken, List.any_cons, List.any_nil, Bool.or_false]
        rcases hb : seatKeyMatches event_id s.1 s.2
            ⟨username, event_id, seat_row, seat_number⟩ with _ | _
        · rfl
        · exact absurd ((seatKeyMatches_pair_iff event_id s (seat_row, seat_number)
            username).1 hb).symm heq

theorem reserveLoop_failed_taken_or_dup (username : String) (event_id : Nat) :
    ∀ (seats : List (String × Nat)) (db : ReservationDB) (s : String × Nat),
      s ∈ (reserveLoop username event_id seats db).2.1 →
      seatTaken db event_id s.1 s.2 = true ∨ 2 ≤ seats.count s := by
  intro seats
  induction seats with
  | nil => intro db s hs; simp [reserveLoop_nil] at hs
  | cons s₀ rest ih =>
    intro db s hs
    obtain ⟨seat_row, seat_number⟩ := s₀
    rcases Bool.eq_false_or_eq_true (seatTaken db event_id seat_row seat_number)
      with h | h
    · rw [reserveLoop_cons_taken username event_id seat_row seat_number rest db h] at hs
      rcases List.mem_cons.1 hs with hcase | hcase
      · left
        rw [hcase]
        exact h
      · rcases ih db s hcase with hl | hr
        · exact Or.inl hl
        · right
          calc 2 ≤ rest.count s := hr
          _ ≤ ((seat_row, seat_number) :: rest).count s := List.count_le_count_cons s _ rest
    · rw [reserveLoop_cons_free username event_id seat_row seat_number rest db h] at hs
      have hmem_rest : s ∈ rest := by
        have := (reserveLoop_perm username event_id rest
          (db ++ [⟨username, event_id, seat_row, seat_number⟩])).mem_iff.1
          (List.mem_append.2 (Or.inr hs))
        exact this
      rcases ih _ s hs with hl | hr
      · rw [seatTaken_append] at hl
        rcases Bool.or_eq_true_iff.1 hl with hdb | hnew
        · exact Or.inl hdb
        · right
          have hseq : s = (seat_row, seat_number) := by
            simp only [seatTaken, List.any_cons, List.any_nil, Bool.or_false] at hnew
            exact ((seatKeyMatches_pair_iff event_id s (seat_row, seat_number)
              username).1 hnew).symm
          rw [hseq, List.count_cons_self]
          have h1 : 1 ≤ rest.count (seat_row, seat_number) :=
            List.count_pos_iff.2 (hseq ▸ hmem_rest)
          omega
      · right
        calc 2 ≤ rest.count s := hr
        _ ≤ ((seat_row, seat_number) :: rest).count s := List.count_le_count_cons s _ rest

theorem reserve_seats_of_quota_ok (db : ReservationDB) (username : String)
    (event_id : Nat) (seats : List (String × Nat))
    (h : ¬ get_user_reservation_count db event_id username + seats.length > 4) :
    reserve_seats db username event_id seats =
      ({ success := (reserveLoop username event_id seats db).2.1.length == 0,
         reserved := (reserveLoop username event_id seats db).1,
         failed := (reserveLoop username event_id seats db).2.1,
         message := none },
       (reserveLoop username event_id seats db).2.2) := by
  simp only [reserve_seats, if_neg h]

/-- C3: Per-seat independence and result partition.  When the quota pre-check
passes, the result partitions the requested seats into `reserved` and `failed`
(their concatenation is a permutation of the request), `success` holds exactly
when `failed` is empty, a requested seat that is free and not duplicated in
the batch is reserved no matter what happens to the other seats, and a seat
ends up in `failed` only because its key was already stored (or it was a
duplicate within the batch). -/
theorem reserve_seats_partition (db : ReservationDB) (username : String)
    (event_id : Nat) (seats : List (String × Nat))
    (hquota : get_user_reservation_count db event_id username + seats.length ≤ 4) :
    (((reserve_seats db username event_id seats).1.reserved ++
        (reserve_seats db username event_id seats).1.failed).Perm seats) ∧
    ((reserve_seats db username event_id seats).1.success = true ↔
      (reserve_seats db username event_id seats).1.failed = []) ∧
    (∀ s ∈ seats, seatTaken db event_id s.1 s.2 = false → seats.count s = 1 →
      s ∈ (reserve_seats db username event_id seats).1.reserved) ∧
    (∀ s ∈ (reserve_seats db username event_id seats).1.failed,
      seatTaken db event_id s.1 s.2 = true ∨ 2 ≤ seats.count s) := by
  have hnot : ¬ get_user_reservation_count db event_id username + seats.length > 4 := by
    omega
  rw [reserve_seats_of_quota_ok db username event_id seats hnot]
  refine ⟨reserveLoop_perm username event_id seats db, ?_, ?_, ?_⟩
  · simp [List.length_eq_zero]
  · intro s hs hfree hcount
    exact reserveLoop_reserved_of_free username event_id seats db s hs hfree hcount
  · intro s hs
    exact reserveLoop_failed_taken_or_dup username event_id seats db s hs

/-- Witness for C3: with seat A1 already held by another user, a batch
request for A1 and A2 passes the quota pre-check and the free seat A2 is
still reserved — the conflict on A1 does not abort it. -/
theorem reserve_seats_partition_witness :
    get_user_reservation_count [⟨"bob", 1, "A", 1⟩] 1 "alice" +
        ([("A", 1), ("A", 2)] : List (String × Nat)).length ≤ 4 ∧
    ("A", 2) ∈ (reserve_seats [⟨"bob", 1, "A", 1⟩] "alice" 1
      [("A", 1), ("A", 2)]).1.reserved :=
  ⟨by decide,
   (reserve_seats_partition [⟨"bob", 1, "A", 1⟩] "alice" 1 [("A", 1), ("A", 2)]
      (by decide)).2.2.1 ("A", 2) (by decide) (by decide) (by decide)⟩

theorem insertSorted_perm (le : α → α → Bool) (a : α) :
    ∀ l : List α, (insertSorted le a l).Perm (a :: l)
  | [] => List.Perm.refl _
  | b :: bs => by
    simp only [insertSorted]
    rcases Bool.eq_false_or_eq_true (le a b) with h | h
    · simp only [h, if_true]
      exact List.Perm.refl _
    · simp only [h, Bool.false_eq_true, if_false]
      exact ((insertSorted_perm le a bs).cons b).trans (List.Perm.swap a b bs)

theorem sortBy_perm (le : α → α → Bool) :
    ∀ l : List α, (sortBy le l).Perm l
  | [] => List.Perm.refl _
  | a :: as =>
    (insertSorted_perm le a (sortBy le as)).trans ((sortBy_perm le as).cons a)

theorem cancelMatches_pair_iff (username : String) (event_id : Nat)
    (s t : String × Nat) :
    cancelMatches username event_id s.1 s.2
      ⟨username, event_id, t.1, t.2⟩ = true ↔ t = s := by
  constructor
  · intro h
    simp only [cancelMatches, Bool.and_eq_true, beq_iff_eq] at h
    exact Prod.ext h.1.2 h.2
  · intro h
    subst h
    simp [cancelMatches]

/-- C8: Book/query/cancel round-trip.  A user with no reservations for the
event books two distinct free seats; `get_user_reserved_seats` then returns
exactly those two seats; after cancelling the first, the same query returns
exactly the second. -/
theorem book_query_cancel_roundtrip (db : ReservationDB) (username : String)
    (event_id : Nat) (s1 s2 : String × Nat)
    (hne : s1 ≠ s2)
    (h1 : seatTaken db event_id s1.1 s1.2 = false)
    (h2 : seatTaken db event_id s2.1 s2.2 = false)
    (h0 : get_user_reservation_count db event_id username = 0) :
    (get_user_reserved_seats (reserve_seats db username event_id [s1, s2]).2
      event_id username).Perm [s1, s2] ∧
    (get_user_reserved_seats
      (cancel_reservation (reserve_seats db username event_id [s1, s2]).2
        username event_id s1.1 s1.2).2 event_id username).Perm [s2] := by
  obtain ⟨row1, num1⟩ := s1
  obtain ⟨row2, num2⟩ := s2
  have hnil : db.filter (fun r => r.event_id == event_id && r.username == username) = [] := by
    simp only [get_user_reservation_count] at h0
    exact List.length_eq_zero.1 h0
  have hquota : ¬ get_user_reservation_count db event_id username +
      ([(row1, num1), (row2, num2)] : List (String × Nat)).length > 4 := by
    rw [h0]
    simp
  have hfree2 : seatTaken (db ++ [⟨username, event_id, row1, num1⟩])
      event_id row2 num2 = false := by
    rw [seatTaken_append, h2, Bool.false_or]
    simp only [seatTaken, List.any_cons, List.any_nil, Bool.or_false]
    rcases hb : seatKeyMatches event_id row2 num2
        ⟨username, event_id, row1, num1⟩ with _ | _
    · rfl
    · exact absurd (congrArg some ((seatKeyMatches_pair_iff event_id (row2, num2)
        (row1, num1) username).1 hb)) (by simpa using hne)
  have hloop : reserveLoop username event_id [(row1, num1), (row2, num2)] db =
      ([(row1, num1), (row2, num2)], [],
       (db ++ [⟨username, event_id, row1, num1⟩]) ++
         [⟨username, event_id, row2, num2⟩]) := by
    simp only [reserveLoop_cons_free username event_id row1 num1 [(row2, num2)] db h1,
      reserveLoop_cons_free username event_id row2 num2 []
        (db ++ [⟨username, event_id, row1, num1⟩]) hfree2,
      reserveLoop_nil]
  have hdb1 : (reserve_seats db username event_id [(row1, num1), (row2, num2)]).2 =
      (db ++ [⟨username, event_id, row1, num1⟩]) ++
        [⟨username, event_id, row2, num2⟩] := by
    rw [reserve_seats_of_quota_ok db username event_id [(row1, num1), (row2, num2)] hquota]
    rw [hloop]
  have hkeep : db.filter (fun r => !(cancelMatches username event_id row1 num1 r)) = db := by
    rw [List.filter_eq_self]
    intro r hr
    rcases hb : cancelMatches username event_id row1 num1 r with _ | _
    · simp
    · exfalso
      have hmem : r ∈ db.filter (fun r => r.event_id == event_id && r.username == username) := by
        rw [List.mem_filter]
        refine ⟨hr, ?_⟩
        simp only [cancelMatches, Bool.and_eq_true, beq_iff_eq] at hb
        simp [hb.1.1.1, hb.1.1.2]
      rw [hnil] at hmem
      exact absurd hmem (List.not_mem_nil r)
  constructor
  · rw [hdb1]
    simp only [get_user_reserved_seats, List.filter_append, hnil, List.nil_append,
      List.filter_cons, List.filter_nil]
    simp only [beq_self_eq_true, Bool.and_self, if_true, List.map_append, List.map_cons,
      List.map_nil]
    exact sortBy_perm seatLe _
  · rw [hdb1]
    simp only [cancel_reservation, List.filter_append, hkeep]
    have hc1 : cancelMatches username event_id row1 num1
        ⟨username, event_id, row1, num1⟩ = true :=
      (cancelMatches_pair_iff username event_id (row1, num1) (row1, num1)).2 rfl
    have hc2 : cancelMatches username event_id row1 num1
        ⟨username, event_id, row2, num2⟩ = false := by
      rcases hb : cancelMatches username event_id row1 num1
          ⟨username, event_id, row2, num2⟩ with _ | _
      · rfl
      · exact absurd (congrArg some ((cancelMatches_pair_iff username event_id
          (row1, num1) (row2, num2)).1 hb)) (by simpa using hne.symm)
    simp only [List.filter_cons, hc1, hc2, Bool.not_true, Bool.not_false,
      Bool.false_eq_true, if_false, if_true, List.filter_nil]
    simp only [get_user_reserved_seats, List.filter_append, hnil, List.nil_append,
      List.filter_cons, List.filter_nil, beq_self_eq_true, Bool.and_self, if_true,
      List.map_cons, List.map_nil]
    exact sortBy_perm seatLe _

/-- Witness for C8: starting from the empty ledger, alice books seats A1 and
A2; the query returns exactly those two, and after cancelling A1 it returns
exactly A2. -/
theorem book_query_cancel_roundtrip_witness :
    (get_user_reserved_seats (reserve_seats [] "alice" 1 [("A", 1), ("A", 2)]).2
      1 "alice").Perm [("A", 1), ("A", 2)] ∧
    (get_user_reserved_seats
      (cancel_reservation (reserve_seats [] "alice" 1 [("A", 1), ("A", 2)]).2
        "alice" 1 "A" 1).2 1 "alice").Perm [("A", 2)] :=
  book_query_cancel_roundtrip [] "alice" 1 ("A", 1) ("A", 2) (by decide) rfl rfl rfl

/-- Counterexample for C5: the static seat map totals 450 seats, not 550, so
it does not match the events table's fixed capacity of 550. -/
theorem seat_map_total_counterexample :
    totalSeats = 450 ∧ events_capacity_default = 550 ∧
      ¬ totalSeats = events_capacity_default := by decide

/-- C5 (amended): the seat-map layout has 14 rows with row sizes between 24
and 36, but its total is 450 seats, which does not match the events table's
fixed capacity default of 550. -/
theorem seat_map_layout_amended :
    rows.length = 14 ∧ (∀ p ∈ rows, 24 ≤ p.2 ∧ p.2 ≤ 36) ∧
      totalSeats = 450 ∧ events_capacity_default = 550 ∧
      totalSeats ≠ events_capacity_default := by decide

/-- Counterexample for C6: on an empty catalog no event with id 5 exists,
yet `delete_event` reports success (`True`), not a not-found error. -/
theorem delete_event_missing_counterexample :
    get_event_by_id ⟨1, []⟩ 5 = none ∧ (delete_event ⟨1, []⟩ 5).1 = true :=
  ⟨rfl, rfl⟩

/-- C6 (amended): `delete_event` removes exactly the events with the given id
and returns `True` unconditionally — it never discriminates a missing event
as a not-found error. -/
theorem delete_event_amended (db : EventsDB) (event_id : Nat) :
    (delete_event db event_id).1 = true ∧
    ∀ ev, ev ∈ (delete_event db event_id).2.events ↔
      ev ∈ db.events ∧ ev.id ≠ event_id := by
  refine ⟨rfl, ?_⟩
  intro ev
  simp [delete_event, List.mem_filter]

/-- Witness for C6 (amended): deleting id 3 from an empty catalog still
returns `True`. -/
theorem delete_event_amended_witness : (delete_event ⟨1, []⟩ 3).1 = true :=
  (delete_event_amended ⟨1, []⟩ 3).1

/-- C7: Date-conflict symmetry.  Creating an event on a date already occupied
by some existing event is rejected by the date-conflict gate (no row is
inserted), while editing an event to a date it already owns is accepted
because `date_has_event` excludes the event being edited (self-exclusion). -/
theorem date_conflict_symmetry (db : EventsDB) (event_id : Nat)
    (name description date time end_time : String) (price : Rat) :
    ((∃ ev ∈ db.events, ev.date = date) →
      create_event_checked db name description date time end_time price =
        (none, db)) ∧
    (∀ cur, get_event_by_id db event_id = some cur → cur.date = date →
      (∀ ev ∈ db.events, ev.date = date → ev.id = event_id) →
      (update_event_checked db event_id name description date time end_time
        price).1 = true) := by
  constructor
  · rintro ⟨ev, hev, hdate⟩
    have hmem : ev ∈ db.events.filter (fun ev => ev.date == date) :=
      List.mem_filter.2 ⟨hev, by simp [hdate]⟩
    have hconf : date_has_event db date none = true := by
      simp only [date_has_event, decide_eq_true_eq]
      exact List.length_pos.2 (List.ne_nil_of_mem hmem)
    simp [create_event_checked, hconf]
  · intro cur hcur hdate honly
    have hnoconf : date_has_event db date (some event_id) = false := by
      simp only [date_has_event, decide_eq_false_iff_not, not_lt, Nat.le_zero,
        List.length_eq_zero, List.filter_eq_nil_iff]
      intro ev hev
      simp only [Bool.and_eq_true, beq_iff_eq, Bool.not_eq_true',
        beq_eq_false_iff_ne, ne_eq, not_and]
      intro hd hne
      exact hne (honly ev hev hd)
    have hupd : (update_event db event_id (some name) (some description)
        (some date) (some time) (some end_time) default_venue
        events_capacity_default (some price)).1 = true := by
      simp only [update_event, hcur]
    simp only [update_event_checked, hnoconf, Bool.false_eq_true, if_false]
    exact hupd

/-- Witness for C7: with one event (id 1) on 2026-01-01, creating a second
event on that date is rejected, while editing event 1 to keep that date is
accepted. -/
theorem date_conflict_symmetry_witness :
    create_event_checked
        ⟨2, [⟨1, "n", "desc", "2026-01-01", "10:00", "12:00", "v", 550, 0⟩]⟩
        "m" "d2" "2026-01-01" "18:00" "20:00" 5 =
      (none, ⟨2, [⟨1, "n", "desc", "2026-01-01", "10:00", "12:00", "v", 550, 0⟩]⟩) ∧
    (update_event_checked
        ⟨2, [⟨1, "n", "desc", "2026-01-01", "10:00", "12:00", "v", 550, 0⟩]⟩
        1 "m" "d2" "2026-01-01" "18:00" "20:00" 5).1 = true := by
  have h := date_conflict_symmetry
    ⟨2, [⟨1, "n", "desc", "2026-01-01", "10:00", "12:00", "v", 550, 0⟩]⟩
    1 "m" "d2" "2026-01-01" "18:00" "20:00" 5
  refine ⟨h.1 ⟨⟨1, "n", "desc", "2026-01-01", "10:00", "12:00", "v", 550, 0⟩,
    by decide, rfl⟩, h.2 ⟨1, "n", "desc", "2026-01-01", "10:00", "12:00", "v", 550, 0⟩
    rfl rfl ?_⟩
  intro ev hev hd
  have : ev = ⟨1, "n", "desc", "2026-01-01", "10:00", "12:00", "v", 550, 0⟩ := by
    simpa using hev
  rw [this]

theorem find?_map_ite (l : List Event) (event_id : Nat) (cur : Event)
    (f : Event → Event) (hf : (f cur).id = cur.id) :
    l.find? (fun ev => ev.id == event_id) = some cur →
    (l.map (fun ev => if ev.id == event_id then f ev else ev)).find?
      (fun ev => ev.id == event_id) = some (f cur) := by
  induction l with
  | nil => intro h; simp at h
  | cons a as ih =>
    intro h
    rcases hb : (a.id == event_id) with _ | _
    · rw [List.find?_cons_of_neg _ (by simp [hb])] at h
      rw [List.map_cons, hb, if_neg (by simp [hb])]
      rw [List.find?_cons_of_neg _ (by simp [hb])]
      exact ih h
    · rw [List.find?_cons_of_pos _ (by simp [hb])] at h
      have ha : a = cur := Option.some_injective _ h
      subst ha
      rw [List.map_cons, hb, if_pos rfl]
      rw [List.find?_cons_of_pos]
      simp only [hf]
      exact hb

/-- C10: `update_event` writes the venue constant and capacity 550 regardless
of the values previously stored, while `name`, `description`, `date`, `time`,
`end_time` and `price` retain their prior values when not supplied.  The
venue and capacity arguments are instantiated at the constants that both the
Python defaults and the repository's single caller
(`edit_event_view.save_changes`) supply. -/
theorem update_event_constants_and_frame (db : EventsDB) (event_id : Nat)
    (cur : Event) (hcur : get_event_by_id db event_id = some cur)
    (name description date time end_time : Option String) (price : Option Rat) :
    (update_event db event_id name description date time end_time
      default_venue events_capacity_default price).1 = true ∧
    get_event_by_id (update_event db event_id name description date time end_time
        default_venue events_capacity_default price).2 event_id =
      some { cur with
             name := name.getD cur.name,
             description := description.getD cur.description,
             date := date.getD cur.date,
             time := time.getD cur.time,
             end_time := end_time.getD cur.end_time,
             venue := default_venue,
             capacity := events_capacity_default,
             price := price.getD cur.price } := by
  have hfind : db.events.find? (fun ev => ev.id == event_id) = some cur := by
    simpa [get_event_by_id] using hcur
  constructor
  · simp only [update_event, get_event_by_id, hfind]
  · simp only [update_event, get_event_by_id, hfind]
    exact find?_map_ite db.events event_id cur
      (fun ev =>
        { ev with
          name := name.getD cur.name,
          description := description.getD cur.description,
          date := date.getD cur.date,
          time := time.getD cur.time,
          end_time := end_time.getD cur.end_time,
          venue := default_venue,
          capacity := events_capacity_default,
          price := price.getD cur.price })
      rfl hcur

/-- Witness for C10: an event previously stored with venue "Old Venue" and
capacity 100 is updated with no new field values; venue and capacity are
overwritten with the constants while every other field is retained. -/
theorem update_event_constants_and_frame_witness :
    (update_event ⟨2, [⟨1, "n", "desc", "2026-01-01", "10:00", "12:00",
        "Old Venue", 100, 0⟩]⟩ 1 none none none none none
      default_venue events_capacity_default none).1 = true ∧
    get_event_by_id (update_event ⟨2, [⟨1, "n", "desc", "2026-01-01", "10:00",
        "12:00", "Old Venue", 100, 0⟩]⟩ 1 none none none none none
      default_venue events_capacity_default none).2 1 =
      some ⟨1, "n", "desc", "2026-01-01", "10:00", "12:00",
        "Castle Hill High School auditorium", 550, 0⟩ := by
  have h := update_event_constants_and_frame
    ⟨2, [⟨1, "n", "desc", "2026-01-01", "10:00", "12:00", "Old Venue", 100, 0⟩]⟩
    1 ⟨1, "n", "desc", "2026-01-01", "10:00", "12:00", "Old Venue", 100, 0⟩
    rfl none none none none none none
  exact ⟨h.1, h.2.trans (by decide)⟩
